import Mathlib

/-!
Verification development for the Building Permits dashboard pages
(Home.py, pages/Univariate.py, pages/Bivariate.py, pages/Exploration.py).

The pages are thin Streamlit glue over pandas and plotly.  The logic that
the specification describes — column-role classification, the chart
decision flow, the top-K-with-Other collapse, scatter sampling,
missing-row exclusion, and the load and import error handling — is
embedded below as executable Lean definitions, translated directly from
the Python source.  Pandas series are lists of optional cells (a missing
cell is none); dataframes are lists of rows keyed by column name.
-/

namespace BuildingPermits

/-- A cell value of the permits table: pandas cells hold numbers, strings
or booleans.  The string constructor also carries the literal
string Other that the collapse helpers insert. -/
inductive Val where
  | i (n : Int)
  | s (t : String)
  | b (v : Bool)
deriving DecidableEq, Repr

/-- The pandas dtypes that the dtype predicates of the pages distinguish:
is_object_dtype, is_categorical_dtype, is_bool_dtype, is_numeric_dtype.
The datetime constructor stands for every remaining dtype for which all
four predicates are false. -/
inductive PDtype where
  | numeric
  | object
  | categorical
  | boolean
  | datetime
deriving DecidableEq, Repr

/-- A pandas Series as used by the pages: an inferred dtype plus the
column cells, where a missing cell (NaN) is none. -/
structure Series where
  dtype : PDtype
  values : List (Option Val)
deriving DecidableEq, Repr

/-- Distinct elements of a list in order of first occurrence, accumulator
form (kernel-reducible).  The seen argument collects elements already
emitted. -/
def uniqueFirstAux {α : Type} [DecidableEq α] (seen : List α) : List α → List α
  | [] => []
  | a :: l => if a ∈ seen then uniqueFirstAux seen l else a :: uniqueFirstAux (a :: seen) l

/-- Distinct elements of a list in order of first occurrence; models the
index of a pandas value_counts result before sorting. -/
def uniqueFirst {α : Type} [DecidableEq α] (l : List α) : List α :=
  uniqueFirstAux [] l

/-- Number of distinct elements of a list; models Series.nunique on an
already missing-free list. -/
def nuniqueList {α : Type} [DecidableEq α] (l : List α) : Nat :=
  (uniqueFirst l).length

/-- The non-missing cells of a column, in order; models dropna / notna
filtering of a single series. -/
def dropna (l : List (Option Val)) : List Val :=
  l.filterMap id

/-- Series.nunique(dropna=True): the count of distinct non-missing
values. -/
def series_nunique (s : Series) : Nat :=
  nuniqueList (dropna s.values)

/-- pd.api.types.is_numeric_dtype: true for numeric dtypes, and pandas
also counts the boolean dtype as numeric. -/
def is_numeric_dtype (d : PDtype) : Bool :=
  d == PDtype.numeric || d == PDtype.boolean

/-- is_numeric from Univariate.py and Bivariate.py: dtype test on the
series. -/
def is_numeric (s : Series) : Bool :=
  is_numeric_dtype s.dtype

/-- is_categorical from Univariate.py (threshold parameter) and
Bivariate.py (cat_threshold parameter): object, categorical or boolean
dtypes are categorical; a numeric dtype is categorical when its count of
distinct non-missing values is at most the threshold; otherwise the
series is not categorical.  The try/except around the second test cannot
fire in this model because nunique is total. -/
def is_categorical (s : Series) (cat_threshold : Nat) : Bool :=
  if (s.dtype == PDtype.object) || (s.dtype == PDtype.categorical)
      || (s.dtype == PDtype.boolean) then
    true
  else if is_numeric_dtype s.dtype && decide (series_nunique s ≤ cat_threshold) then
    true
  else
    false

/-- The derived column role of the specification: the pages label a
column categorical exactly when is_categorical holds, and numeric
otherwise. -/
inductive Classification where
  | Numeric
  | Categorical
deriving DecidableEq, Repr

/-- The column classifier of the specification, as the pages compute it:
Categorical exactly when is_categorical answers true. -/
def classify (s : Series) (t : Nat) : Classification :=
  if is_categorical s t then Classification.Categorical else Classification.Numeric

/-- A numeric column with two distinct values, used as a concrete
instance in witnesses. -/
def colNumericWide : Series :=
  ⟨PDtype.numeric, [some (Val.i 0), some (Val.i 1)]⟩

/-- A text column with one value, used as a concrete instance in
witnesses. -/
def colText : Series :=
  ⟨PDtype.object, [some (Val.s "a")]⟩

/-- C1: for every column and every cardinality threshold, the classifier
returns Categorical when the dtype is text, boolean or categorical, and
also when the column is numeric with at most threshold distinct
non-missing values; and it returns Numeric for every numeric column with
more than threshold distinct non-missing values. -/
theorem C1_classifier_roles (s : Series) (t : Nat) :
    ((s.dtype = PDtype.object ∨ s.dtype = PDtype.boolean ∨ s.dtype = PDtype.categorical) →
      classify s t = Classification.Categorical)
    ∧ (s.dtype = PDtype.numeric → series_nunique s ≤ t →
      classify s t = Classification.Categorical)
    ∧ (s.dtype = PDtype.numeric → t < series_nunique s →
      classify s t = Classification.Numeric) := by
  refine ⟨?_, ?_, ?_⟩
  · rintro (h | h | h) <;> simp [classify, is_categorical, h]
  · intro h hle
    simp [classify, is_categorical, is_numeric_dtype, h, hle]
  · intro h hgt
    simp [classify, is_categorical, is_numeric_dtype, h, Nat.not_le.2 hgt]

/-- Witness for C1: a numeric column with 2 distinct values and
threshold 1 classifies Numeric, and a text column classifies
Categorical. -/
theorem C1_classifier_roles_witness :
    classify colNumericWide 1 = Classification.Numeric
    ∧ classify colText 5 = Classification.Categorical :=
  ⟨(C1_classifier_roles colNumericWide 1).2.2 rfl (by decide),
   (C1_classifier_roles colText 5).1 (Or.inl rfl)⟩

lemma mem_uniqueFirstAux {α : Type} [DecidableEq α] (seen l : List α) (x : α) :
    x ∈ uniqueFirstAux seen l ↔ x ∈ l ∧ x ∉ seen := by
  induction l generalizing seen with
  | nil => simp [uniqueFirstAux]
  | cons a l ih =>
    by_cases ha : a ∈ seen
    · rw [uniqueFirstAux, if_pos ha, ih]
      simp only [List.mem_cons]
      constructor
      · rintro ⟨h1, h2⟩
        exact ⟨Or.inr h1, h2⟩
      · rintro ⟨h1, h2⟩
        rcases h1 with rfl | h1
        · exact absurd ha h2
        · exact ⟨h1, h2⟩
    · rw [uniqueFirstAux, if_neg ha]
      simp only [List.mem_cons, ih]
      constructor
      · rintro (rfl | ⟨h1, h2⟩)
        · exact ⟨Or.inl rfl, ha⟩
        · exact ⟨Or.inr h1, fun hx => h2 (Or.inr hx)⟩
      · rintro ⟨h1, h2⟩
        rcases h1 with rfl | h1
        · exact Or.inl rfl
        · by_cases hxa : x = a
          · exact Or.inl hxa
          · exact Or.inr ⟨h1, fun hx => hx.elim hxa h2⟩

lemma nodup_uniqueFirstAux {α : Type} [DecidableEq α] (seen l : List α) :
    (uniqueFirstAux seen l).Nodup := by
  induction l generalizing seen with
  | nil => simp [uniqueFirstAux]
  | cons a l ih =>
    by_cases ha : a ∈ seen
    · rw [uniqueFirstAux, if_pos ha]
      exact ih seen
    · rw [uniqueFirstAux, if_neg ha]
      refine List.nodup_cons.2 ⟨?_, ih (a :: seen)⟩
      intro hmem
      exact ((mem_uniqueFirstAux _ _ _).1 hmem).2 (List.mem_cons_self a seen)

lemma mem_uniqueFirst {α : Type} [DecidableEq α] (l : List α) (x : α) :
    x ∈ uniqueFirst l ↔ x ∈ l := by
  simp [uniqueFirst, mem_uniqueFirstAux]

lemma nodup_uniqueFirst {α : Type} [DecidableEq α] (l : List α) :
    (uniqueFirst l).Nodup :=
  nodup_uniqueFirstAux [] l

lemma uniqueFirst_perm_dedup {α : Type} [DecidableEq α] (l : List α) :
    List.Perm (uniqueFirst l) l.dedup :=
  (List.perm_ext_iff_of_nodup (nodup_uniqueFirst l) l.nodup_dedup).2
    (fun x => by rw [mem_uniqueFirst, List.mem_dedup])

lemma sum_counts_uniqueFirst {α : Type} [DecidableEq α] (l : List α) :
    ((uniqueFirst l).map (fun v => l.count v)).sum = l.length := by
  have hp : List.Perm ((uniqueFirst l).map (fun v => l.count v))
      (l.dedup.map (fun v => l.count v)) := (uniqueFirst_perm_dedup l).map _
  rw [hp.sum_eq, List.sum_map_count_dedup_eq_length]

/-- Stable insertion of a keyed count into a list sorted by descending
count: the new pair goes before the first strictly smaller count, so
ties keep their existing order. -/
def insertDescByCount {α : Type} (p : α × Nat) : List (α × Nat) → List (α × Nat)
  | [] => [p]
  | q :: l => if q.2 < p.2 then p :: q :: l else q :: insertDescByCount p l

/-- Stable sort by descending count; models the descending order of a
pandas value_counts result combined with the first-tie policy of
nlargest. -/
def sortDescByCount {α : Type} : List (α × Nat) → List (α × Nat)
  | [] => []
  | p :: l => insertDescByCount p (sortDescByCount l)

lemma insertDescByCount_perm {α : Type} (p : α × Nat) (l : List (α × Nat)) :
    List.Perm (insertDescByCount p l) (p :: l) := by
  induction l with
  | nil => exact List.Perm.refl _
  | cons q l ih =>
    rw [insertDescByCount]
    by_cases h : q.2 < p.2
    · rw [if_pos h]
    · rw [if_neg h]
      exact (ih.cons q).trans (List.Perm.swap p q l)

lemma sortDescByCount_perm {α : Type} (l : List (α × Nat)) :
    List.Perm (sortDescByCount l) l := by
  induction l with
  | nil => exact List.Perm.refl _
  | cons p l ih =>
    exact (insertDescByCount_perm p (sortDescByCount l)).trans (ih.cons p)

/-- Series.value_counts(dropna=True) on an already missing-free list:
each distinct value paired with its frequency, in descending frequency
order, ties kept in first-occurrence order. -/
def valueCounts {α : Type} [DecidableEq α] (l : List α) : List (α × Nat) :=
  sortDescByCount ((uniqueFirst l).map (fun v => (v, l.count v)))

lemma valueCounts_perm {α : Type} [DecidableEq α] (l : List α) :
    List.Perm (valueCounts l) ((uniqueFirst l).map (fun v => (v, l.count v))) :=
  sortDescByCount_perm _

lemma valueCounts_sum {α : Type} [DecidableEq α] (l : List α) :
    ((valueCounts l).map Prod.snd).sum = l.length := by
  have h1 := (valueCounts_perm l).map Prod.snd
  rw [h1.sum_eq, List.map_map]
  simpa [Function.comp] using sum_counts_uniqueFirst l

/-- vc.nlargest(k).index from the collapse helpers: the keys of the
first k entries of the descending value_counts of the non-missing
cells. -/
def topCats (l : List (Option Val)) (k : Nat) : List Val :=
  ((valueCounts (dropna l)).take k).map Prod.fst

/-- The literal replacement category inserted by the collapse helpers. -/
def otherVal : Val := Val.s "Other"

/-- top_k_with_other from Bivariate.py: series.where(series.isin(top),
other=Other).  A cell passing the isin test is kept; every other cell,
including a missing one, is replaced by the Other category (isin is
false on NaN). -/
def topKWithOther (l : List (Option Val)) (k : Nat) : List Val :=
  l.map (fun c =>
    match c with
    | some v => if v ∈ topCats l k then v else otherVal
    | none => otherVal)

lemma length_topCats_le (l : List (Option Val)) (k : Nat) :
    (topCats l k).length ≤ k := by
  simp only [topCats, List.length_map, List.length_take]
  exact min_le_left _ _

lemma topKWithOther_mem {l : List (Option Val)} {k : Nat} {x : Val}
    (hx : x ∈ topKWithOther l k) : x = otherVal ∨ x ∈ topCats l k := by
  rcases List.mem_map.1 hx with ⟨c, _, rfl⟩
  cases c with
  | none => exact Or.inl rfl
  | some v =>
    show (if v ∈ topCats l k then v else otherVal) = otherVal
      ∨ (if v ∈ topCats l k then v else otherVal) ∈ topCats l k
    by_cases hv : v ∈ topCats l k
    · rw [if_pos hv]
      exact Or.inr hv
    · rw [if_neg hv]
      exact Or.inl rfl

lemma nunique_topKWithOther_le (l : List (Option Val)) (k : Nat) :
    nuniqueList (topKWithOther l k) ≤ k + 1 := by
  have hsub : uniqueFirst (topKWithOther l k) ⊆ otherVal :: topCats l k := by
    intro x hx
    rcases topKWithOther_mem ((mem_uniqueFirst _ _).1 hx) with h | h
    · exact h ▸ List.mem_cons_self _ _
    · exact List.mem_cons_of_mem _ h
  have hlen := ((nodup_uniqueFirst (topKWithOther l k)).subperm hsub).length_le
  calc nuniqueList (topKWithOther l k)
      = (uniqueFirst (topKWithOther l k)).length := rfl
    _ ≤ (otherVal :: topCats l k).length := hlen
    _ = (topCats l k).length + 1 := by simp
    _ ≤ k + 1 := Nat.succ_le_succ (length_topCats_le l k)

lemma topKWithOther_get_mem (l : List (Option Val)) (k n : Nat) (v : Val)
    (hn : l[n]? = some (some v)) (hv : v ∈ topCats l k) :
    (topKWithOther l k)[n]? = some v := by
  rw [topKWithOther, List.getElem?_map, hn]
  simp [hv]

lemma topKWithOther_get_not_mem (l : List (Option Val)) (k n : Nat) (v : Val)
    (hn : l[n]? = some (some v)) (hv : v ∉ topCats l k) :
    (topKWithOther l k)[n]? = some otherVal := by
  rw [topKWithOther, List.getElem?_map, hn]
  simp [hv]

lemma topKWithOther_get_none (l : List (Option Val)) (k n : Nat)
    (hn : l[n]? = some none) :
    (topKWithOther l k)[n]? = some otherVal := by
  rw [topKWithOther, List.getElem?_map, hn]
  simp

/-- category_trunc from Univariate.py lines 87-89: the notna-filtered
column, with every value outside the top-k most frequent replaced by the
Other category.  The top set is computed from the same notna-filtered
column (value_counts with dropna). -/
def univariate_trunc (l : List (Option Val)) (k : Nat) : List Val :=
  (dropna l).map (fun v => if v ∈ topCats l k then v else otherVal)

/-- counts from Univariate.py line 91: the value_counts table of the
truncated column that the bar chart, the pie chart and the counts table
display. -/
def univariate_category_counts (l : List (Option Val)) (k : Nat) : List (Val × Nat) :=
  valueCounts (univariate_trunc l k)

/-- C3: after the top-K-with-Other collapse, the displayed category
counts plus the Other bucket count add up to the non-missing row count
of the column (Univariate.py pipeline); likewise the Bivariate.py
collapse of an already missing-free column preserves the total count
across its value_counts buckets. -/
theorem C3_collapse_preserves_counts (l : List (Option Val)) (k : Nat) (m : List Val) :
    ((((univariate_category_counts l k).filter (fun p => p.1 ≠ otherVal)).map Prod.snd).sum)
      + ((((univariate_category_counts l k).filter (fun p => p.1 = otherVal)).map Prod.snd).sum)
      = (dropna l).length
    ∧ ((valueCounts (topKWithOther (m.map some) k)).map Prod.snd).sum = m.length := by
  constructor
  · have hperm := List.filter_append_perm
      (fun pr : Val × Nat => decide (pr.1 ≠ otherVal)) (univariate_category_counts l k)
    have hsum := (hperm.map Prod.snd).sum_eq
    rw [List.map_append, List.sum_append] at hsum
    have hq : (univariate_category_counts l k).filter
          (fun pr => !(decide (pr.1 ≠ otherVal)))
        = (univariate_category_counts l k).filter (fun pr => decide (pr.1 = otherVal)) := by
      apply List.filter_congr
      intro x _
      simp [decide_not]
    rw [hq] at hsum
    rw [hsum]
    rw [univariate_category_counts, valueCounts_sum, univariate_trunc, List.length_map]
  · rw [valueCounts_sum, topKWithOther, List.length_map, List.length_map]

/-- C10: for every series and k, the collapsed series has at most k + 1
distinct values: a cell holding one of the top-k categories is kept, any
other cell becomes the Other category, and a pre-existing category
literally named Other ends up indistinguishable from the remainder
bucket. -/
theorem C10_topk_with_other_shape (l : List (Option Val)) (k : Nat) (_hk : 1 ≤ k) :
    nuniqueList (topKWithOther l k) ≤ k + 1
    ∧ (∀ (n : Nat) (v : Val), l[n]? = some (some v) → v ∈ topCats l k →
        (topKWithOther l k)[n]? = some v)
    ∧ (∀ (n : Nat) (v : Val), l[n]? = some (some v) → v ∉ topCats l k →
        (topKWithOther l k)[n]? = some otherVal)
    ∧ (∀ (n : Nat), l[n]? = some (some otherVal) →
        (topKWithOther l k)[n]? = some otherVal) := by
  refine ⟨nunique_topKWithOther_le l k, ?_, ?_, ?_⟩
  · intro n v hn hv
    exact topKWithOther_get_mem l k n v hn hv
  · intro n v hn hv
    exact topKWithOther_get_not_mem l k n v hn hv
  · intro n hn
    by_cases hv : otherVal ∈ topCats l k
    · exact topKWithOther_get_mem l k n otherVal hn hv
    · exact topKWithOther_get_not_mem l k n otherVal hn hv

/-- A concrete column for the C10 witness: two cells a, one b, one
missing cell and one pre-existing Other. -/
def colC10 : List (Option Val) :=
  [some (Val.s "a"), some (Val.s "a"), some (Val.s "b"), none, some (Val.s "Other")]

/-- Witness for C10 at k = 1: the collapse of colC10 has at most 2
distinct values and maps the b cell at index 2 to Other. -/
theorem C10_topk_with_other_shape_witness :
    nuniqueList (topKWithOther colC10 1) ≤ 2
    ∧ (topKWithOther colC10 1)[2]? = some otherVal :=
  ⟨(C10_topk_with_other_shape colC10 1 (by decide)).1,
   (C10_topk_with_other_shape colC10 1 (by decide)).2.2.1 2 (Val.s "b")
     (by decide) (by decide)⟩

/-- The chart families the Bivariate page can render: the three
numeric-vs-numeric plots, the two numeric-vs-categorical plots, and the
two categorical-vs-categorical displays. -/
inductive ChartFamily where
  | scatter
  | densityHeatmap
  | line
  | box
  | barAgg
  | contingencyHeatmap
  | catHistogram
deriving DecidableEq, Repr

/-- Heatmap eligibility from render_cat_vs_cat line 172: the Heatmap
preference is selected and both columns have at most 60 distinct
values. -/
def heatmap_eligible (prefer_categorical : String) (ux uy : Nat) : Bool :=
  prefer_categorical == "Heatmap" && decide (ux ≤ 60) && decide (uy ≤ 60)

/-- The main decision flow of Bivariate.py lines 188-211: the
numeric-vs-numeric branch is tested first on the dtype predicates alone;
then the mixed branch; the final branch renders categorical vs
categorical, choosing the contingency heatmap only when eligible.  The
ux and uy arguments are the distinct counts of the two plotted columns
as computed before any collapse. -/
def main_decision (num_x num_y cat_x cat_y : Bool)
    (plot_choice chart_choice prefer_categorical : String) (ux uy : Nat) : ChartFamily :=
  if num_x && num_y then
    if plot_choice == "Scatter" then ChartFamily.scatter
    else if plot_choice == "Heatmap" then ChartFamily.densityHeatmap
    else ChartFamily.line
  else if (cat_x && num_y) || (num_x && cat_y) then
    if chart_choice == "Box" then ChartFamily.box else ChartFamily.barAgg
  else if heatmap_eligible prefer_categorical ux uy then
    ChartFamily.contingencyHeatmap
  else
    ChartFamily.catHistogram

/-- The decision flow applied to two concrete columns, with num and cat
flags computed exactly as in Bivariate.py lines 70-73. -/
def series_main_decision (x y : Series) (t : Nat)
    (plot_choice chart_choice prefer_categorical : String) (ux uy : Nat) : ChartFamily :=
  main_decision (is_numeric x) (is_numeric y) (is_categorical x t) (is_categorical y t)
    plot_choice chart_choice prefer_categorical ux uy

/-- A numeric column with a single value, reclassified categorical at
every threshold. -/
def colNumericNarrow : Series := ⟨PDtype.numeric, [some (Val.i 0)]⟩

lemma classify_eq_numeric_iff (s : Series) (t : Nat) :
    classify s t = Classification.Numeric ↔ is_categorical s t = false := by
  cases h : is_categorical s t <;> simp [classify, h]

lemma classify_eq_categorical_iff (s : Series) (t : Nat) :
    classify s t = Classification.Categorical ↔ is_categorical s t = true := by
  cases h : is_categorical s t <;> simp [classify, h]

/-- C5 counterexample: both columns have numeric dtype; x classifies
Numeric and y is reclassified Categorical by low cardinality, yet the
page takes the numeric-vs-numeric branch and renders a scatter, not a
box or aggregated bar. -/
theorem C5_scatter_despite_categorical :
    classify colNumericWide 1 = Classification.Numeric
    ∧ classify colNumericNarrow 1 = Classification.Categorical
    ∧ series_main_decision colNumericWide colNumericNarrow 1 "Scatter" "Box" "Heatmap" 2 1
        = ChartFamily.scatter
    ∧ ChartFamily.scatter ≠ ChartFamily.box
    ∧ ChartFamily.scatter ≠ ChartFamily.barAgg := by
  decide

/-- C5 amended: when one selected column has numeric dtype and
classifies Numeric, the other classifies Categorical, and the two
columns are not both of (pandas-)numeric dtype, the rendered family is a
box plot or an aggregated bar for every chart sub-choice. -/
theorem C5_box_or_bar_when_mixed (x y : Series) (t : Nat)
    (pc cc pref : String) (ux uy : Nat)
    (hnn : ¬(is_numeric x = true ∧ is_numeric y = true))
    (hcls : (x.dtype = PDtype.numeric ∧ classify x t = Classification.Numeric
              ∧ classify y t = Classification.Categorical)
          ∨ (y.dtype = PDtype.numeric ∧ classify y t = Classification.Numeric
              ∧ classify x t = Classification.Categorical)) :
    series_main_decision x y t pc cc pref ux uy = ChartFamily.box
    ∨ series_main_decision x y t pc cc pref ux uy = ChartFamily.barAgg := by
  rcases hcls with ⟨hdx, hx, hy⟩ | ⟨hdy, hy, hx⟩
  · have hnx : is_numeric x = true := by simp [is_numeric, is_numeric_dtype, hdx]
    have hcx : is_categorical x t = false := (classify_eq_numeric_iff x t).1 hx
    have hcy : is_categorical y t = true := (classify_eq_categorical_iff y t).1 hy
    have hny : is_numeric y = false := by
      cases hny : is_numeric y
      · rfl
      · exact absurd ⟨hnx, hny⟩ hnn
    by_cases hcc : cc = "Box"
    · subst hcc
      simp [series_main_decision, main_decision, hnx, hny, hcx, hcy]
    · simp [series_main_decision, main_decision, hnx, hny, hcx, hcy, hcc]
  · have hny : is_numeric y = true := by simp [is_numeric, is_numeric_dtype, hdy]
    have hcy : is_categorical y t = false := (classify_eq_numeric_iff y t).1 hy
    have hcx : is_categorical x t = true := (classify_eq_categorical_iff x t).1 hx
    have hnx : is_numeric x = false := by
      cases hnx : is_numeric x
      · rfl
      · exact absurd ⟨hnx, hny⟩ hnn
    by_cases hcc : cc = "Box"
    · subst hcc
      simp [series_main_decision, main_decision, hnx, hny, hcx, hcy]
    · simp [series_main_decision, main_decision, hnx, hny, hcx, hcy, hcc]

/-- Witness for C5 amended: a wide numeric column against a text column
renders a box plot under the Box sub-choice. -/
theorem C5_box_or_bar_when_mixed_witness :
    series_main_decision colNumericWide colText 1 "Scatter" "Box" "Heatmap" 2 1
        = ChartFamily.box
    ∨ series_main_decision colNumericWide colText 1 "Scatter" "Box" "Heatmap" 2 1
        = ChartFamily.barAgg :=
  C5_box_or_bar_when_mixed colNumericWide colText 1 "Scatter" "Box" "Heatmap" 2 1
    (by decide) (Or.inl ⟨rfl, by decide, by decide⟩)

/-- What the Bivariate page emits: a warning, a pairwise chart, or a
single-column summary. -/
inductive BivOut where
  | warn (msg : String)
  | pairChart (fam : ChartFamily)
  | singleSummary (col : String)
deriving DecidableEq, Repr

/-- True exactly on the single-column summary output. -/
def isSingleSummary : BivOut → Bool
  | BivOut.singleSummary _ => true
  | _ => false

/-- Bivariate.py main flow: lines 64-65 emit a warning when the two
selections coincide, and execution then continues unconditionally into
the pairwise decision flow of lines 188-211, which always renders a
pairwise chart.  No single-column summary path exists on this page; the
singleSummary constructor exists so that the specified behaviour is
expressible. -/
def bivariate_page (x_col y_col : String) (x y : Series) (t : Nat)
    (plot_choice chart_choice prefer_categorical : String) (ux uy : Nat) : List BivOut :=
  (if x_col == y_col then
    [BivOut.warn "X and Y are the same column — showing single-column summary instead."]
  else [])
  ++ [BivOut.pairChart
        (series_main_decision x y t plot_choice chart_choice prefer_categorical ux uy)]

/-- C2 divergence: selecting the same column for both axes emits the
warning that promises a single-column summary, yet the page still
renders a pairwise chart of the column against itself and no
single-column summary appears in the output. -/
theorem C2_equal_columns_still_pairwise :
    bivariate_page "Permit Type" "Permit Type" colNumericNarrow colNumericNarrow 20
        "Scatter" "Box" "Heatmap" 1 1
      = [BivOut.warn "X and Y are the same column — showing single-column summary instead.",
         BivOut.pairChart ChartFamily.scatter]
    ∧ (bivariate_page "Permit Type" "Permit Type" colNumericNarrow colNumericNarrow 20
        "Scatter" "Box" "Heatmap" 1 1).all (fun o => !isSingleSummary o) = true := by
  decide

/-- The Univariate top-K slider of line 86: minimum 3, maximum 100,
default 25. -/
def univariate_top_k_min : Nat := 3

/-- The Univariate top-K slider maximum. -/
def univariate_top_k_max : Nat := 100

/-- The Univariate top-K slider default. -/
def univariate_top_k_default : Nat := 25

/-- max_display from render_cat_vs_cat line 166. -/
def bivariate_max_display : Nat := 40

/-- render_cat_vs_cat lines 163-170 for one axis: the column is
collapsed to the top max_display categories plus Other only when its
distinct count exceeds max_display. -/
def cat_vs_cat_collapse (xs : List (Option Val)) : List (Option Val) :=
  if bivariate_max_display < nuniqueList (dropna xs) then
    (topKWithOther xs bivariate_max_display).map some
  else xs

/-- C6 counterexample: the single-column top-K display limit defaults to
25, not 20 as claimed. -/
theorem C6_default_not_twenty : univariate_top_k_default ≠ 20 := by
  decide

/-- C6 amended: the top-K display limit defaults to 25 for single-column
views and 40 for pairwise views; contingency-heatmap eligibility
requires at most 60 distinct values per column; the pairwise collapse
fires only above 40 distinct values and leaves at most 41 categories;
and every category outside the top-K is merged into the Other bucket. -/
theorem C6_limits_and_collapse :
    univariate_top_k_default = 25
    ∧ bivariate_max_display = 40
    ∧ (∀ (pref : String) (ux uy : Nat), heatmap_eligible pref ux uy = true →
        ux ≤ 60 ∧ uy ≤ 60)
    ∧ (∀ xs : List (Option Val),
        nuniqueList (dropna (cat_vs_cat_collapse xs))
          ≤ max (bivariate_max_display + 1) (nuniqueList (dropna xs)))
    ∧ (∀ (l : List (Option Val)) (k n : Nat) (v : Val),
        l[n]? = some (some v) → v ∉ topCats l k →
        (topKWithOther l k)[n]? = some otherVal) := by
  refine ⟨rfl, rfl, ?_, ?_, ?_⟩
  · intro pref ux uy h
    simp only [heatmap_eligible, Bool.and_eq_true, decide_eq_true_eq] at h
    exact ⟨h.1.2, h.2⟩
  · intro xs
    rw [cat_vs_cat_collapse]
    by_cases h : bivariate_max_display < nuniqueList (dropna xs)
    · rw [if_pos h]
      have h1 : dropna ((topKWithOther xs bivariate_max_display).map some)
          = topKWithOther xs bivariate_max_display := by
        simp [dropna]
      rw [h1]
      exact le_max_of_le_left (nunique_topKWithOther_le xs bivariate_max_display)
    · rw [if_neg h]
      exact le_max_of_le_right (le_refl _)
  · intro l k n v hn hv
    exact topKWithOther_get_not_mem l k n v hn hv

/-- Witness for C6 amended: eligibility at 50 and 55 distinct values
implies the bounds, the collapse leaves the small column colC10
untouched within the bound, and the b cell of colC10 is merged into
Other at k = 1. -/
theorem C6_limits_and_collapse_witness :
    (50 ≤ 60 ∧ 55 ≤ 60)
    ∧ nuniqueList (dropna (cat_vs_cat_collapse colC10))
        ≤ max (bivariate_max_display + 1) (nuniqueList (dropna colC10))
    ∧ (topKWithOther colC10 1)[2]? = some otherVal :=
  ⟨C6_limits_and_collapse.2.2.1 "Heatmap" 50 55 (by decide),
   C6_limits_and_collapse.2.2.2.1 colC10,
   C6_limits_and_collapse.2.2.2.2 colC10 1 2 (Val.s "b") (by decide) (by decide)⟩

/-- df.sample(n, random_state=seed): pandas draws a pseudo-random
permutation fully determined by the seed and keeps n rows.  The exact
permutation is internal to pandas, outside this repository; it is
modelled as a concrete deterministic permutation (a rotation keyed by
the seed), which carries the two properties the pages rely on: the draw
is a pure function of (seed, n, data) and it returns exactly n of the
rows when n is at most the row count. -/
def sample_seeded {α : Type} (seed n : Nat) (l : List α) : List α :=
  (l.rotate seed).take n

/-- render_scatter of Bivariate.py lines 93-96 and the Univariate
histogram sampling of lines 64-66: when the limit is positive and the
row count exceeds it, a sample of exactly limit rows is drawn with the
fixed seed 42; otherwise the data is left untouched. -/
def render_scatter_rows {α : Type} (sample_limit : Nat) (l : List α) : List α :=
  if 0 < sample_limit ∧ sample_limit < l.length then
    sample_seeded 42 sample_limit l
  else l

/-- C4: with a configured (positive) sampling limit, the scatter data
row count equals min(limit, input row count); and the sampling output is
a pure function of seed, limit and input, so re-running with the same
seed and limit yields an identical sample.  A limit of zero means
sampling is disabled in the sidebar widget and is therefore not a
configured limit. -/
theorem C4_scatter_sampling {α : Type} (sample_limit : Nat) (l : List α)
    (h : 0 < sample_limit) :
    (render_scatter_rows sample_limit l).length = min sample_limit l.length
    ∧ (∀ (seed1 seed2 n1 n2 : Nat) (l1 l2 : List α),
        seed1 = seed2 → n1 = n2 → l1 = l2 →
        sample_seeded seed1 n1 l1 = sample_seeded seed2 n2 l2) := by
  constructor
  · by_cases hlt : sample_limit < l.length
    · rw [render_scatter_rows, if_pos ⟨h, hlt⟩, sample_seeded, List.length_take,
        List.length_rotate]
    · rw [render_scatter_rows, if_neg (fun hc => hlt hc.2)]
      exact (min_eq_right (Nat.le_of_not_lt hlt)).symm
  · intro seed1 seed2 n1 n2 l1 l2 hs hn hl
    rw [hs, hn, hl]

/-- Witness for C4 at limit 2 on a 3-row input: the sample has
min 2 3 = 2 rows. -/
theorem C4_scatter_sampling_witness :
    0 < 2 ∧ (render_scatter_rows 2 [(1 : Nat), 2, 3]).length = min 2 3 :=
  ⟨by decide, (C4_scatter_sampling 2 [(1 : Nat), 2, 3] (by decide)).1⟩

/-- A dataframe row: cells keyed by column name; a missing cell (NaN)
is none. -/
abbrev Row : Type := List (String × Option Val)

/-- Cell access by column label: the first matching column (labels are
unique in the permits frame). -/
def getCell : Row → String → Option Val
  | [], _ => none
  | p :: r, c => if p.1 == c then p.2 else getCell r c

/-- Column projection df[[c1, c2, ...]]: the row restricted to the
selected columns. -/
def restrictRow (r : Row) (cols : List String) : Row :=
  cols.map (fun c => (c, getCell r c))

/-- safe_dropna of Bivariate.py lines 33-34:
subdf.loc[subdf[cols].notna().all(axis=1)] keeps exactly the rows whose
cells are present in every selected column. -/
def safe_dropna (rows : List Row) (cols : List String) : List Row :=
  rows.filter (fun r => cols.all (fun c => (getCell r c).isSome))

/-- The columns used by the current bivariate view: x, y and the
optional color column (Bivariate.py line 78). -/
def bivariate_used_cols (x_col y_col : String) (color_col : Option String) : List String :=
  [x_col, y_col] ++ (match color_col with | some c => [c] | none => [])

/-- plot_df preparation of Bivariate.py lines 78-79: project onto the
used columns, then drop every row with a missing cell in any of them. -/
def bivariate_plot_df (rows : List Row) (x_col y_col : String)
    (color_col : Option String) : List Row :=
  safe_dropna (rows.map (fun r => restrictRow r (bivariate_used_cols x_col y_col color_col)))
    (bivariate_used_cols x_col y_col color_col)

/-- plot_df preparation of Univariate.py lines 58-59: project onto the
selected column and keep the rows whose cell in that column is
present. -/
def univariate_plot_df (rows : List Row) (column : String) : List Row :=
  (rows.map (fun r => restrictRow r [column])).filter
    (fun r => (getCell r column).isSome)

lemma getCell_restrictRow (r : Row) (cols : List String) (c : String)
    (hc : c ∈ cols) : getCell (restrictRow r cols) c = getCell r c := by
  induction cols with
  | nil => cases hc
  | cons a cols ih =>
    show getCell ((a, getCell r a) :: restrictRow r cols) c = getCell r c
    by_cases hac : a = c
    · subst hac
      simp [getCell]
    · have hb : (a == c) = false := by
        simp [hac]
      have hc2 : c ∈ cols := by
        rcases List.mem_cons.1 hc with h | h
        · exact absurd h.symm hac
        · exact h
      simp only [getCell, hb, Bool.false_eq_true, if_false]
      exact ih hc2

/-- C7: in the pairwise view every surviving row has a present cell in
each used column (x, y and the optional color column), and every
original row that is present in all used columns survives; in the
single-column view only missingness of that column itself decides
survival. -/
theorem C7_missing_rows_excluded (rows : List Row) (x_col y_col column : String)
    (color_col : Option String) :
    (∀ r ∈ bivariate_plot_df rows x_col y_col color_col,
        ∀ c ∈ bivariate_used_cols x_col y_col color_col, (getCell r c).isSome = true)
    ∧ (∀ r ∈ rows,
        (∀ c ∈ bivariate_used_cols x_col y_col color_col, (getCell r c).isSome = true) →
        restrictRow r (bivariate_used_cols x_col y_col color_col)
          ∈ bivariate_plot_df rows x_col y_col color_col)
    ∧ (∀ r ∈ univariate_plot_df rows column, (getCell r column).isSome = true)
    ∧ (∀ r ∈ rows, (getCell r column).isSome = true →
        restrictRow r [column] ∈ univariate_plot_df rows column) := by
  refine ⟨?_, ?_, ?_, ?_⟩
  · intro r hr c hc
    have h := (List.mem_filter.1 hr).2
    rw [List.all_eq_true] at h
    exact h c hc
  · intro r hr hall
    apply List.mem_filter.2
    refine ⟨List.mem_map.2 ⟨r, hr, rfl⟩, ?_⟩
    rw [List.all_eq_true]
    intro c hc
    rw [getCell_restrictRow r _ c hc]
    exact hall c hc
  · intro r hr
    exact (List.mem_filter.1 hr).2
  · intro r hr h
    apply List.mem_filter.2
    refine ⟨List.mem_map.2 ⟨r, hr, rfl⟩, ?_⟩
    rw [getCell_restrictRow r [column] column (by simp)]
    exact h

/-- A row with a present a cell and a missing b cell. -/
def rowA : Row := [("a", some (Val.i 1)), ("b", none)]

/-- A row with both cells present. -/
def rowB : Row := [("a", some (Val.i 2)), ("b", some (Val.i 3))]

/-- A two-row frame for the C7 witness. -/
def dfRows : List Row := [rowA, rowB]

/-- Witness for C7: the complete row survives the pairwise preparation
over a and b, and the row missing only in b survives the single-column
preparation over a. -/
theorem C7_missing_rows_excluded_witness :
    restrictRow rowB (bivariate_used_cols "a" "b" none)
      ∈ bivariate_plot_df dfRows "a" "b" none
    ∧ restrictRow rowA ["a"] ∈ univariate_plot_df dfRows "a" :=
  ⟨(C7_missing_rows_excluded dfRows "a" "b" "a" none).2.1 rowB (by decide) (by decide),
   (C7_missing_rows_excluded dfRows "a" "b" "a" none).2.2.2 rowA (by decide) (by decide)⟩

/-- The in-memory table: named columns and rows of labelled cells. -/
structure DataFrame where
  cols : List String
  rows : List Row
deriving DecidableEq, Repr

/-- The sentinel pd.DataFrame() returned on load failure. -/
def DataFrame.emptyFrame : DataFrame := ⟨[], []⟩

/-- df.empty in pandas: true when either axis has length zero. -/
def DataFrame.isEmptyDF (df : DataFrame) : Bool :=
  df.rows.isEmpty || df.cols.isEmpty

/-- The possible outcomes of reading the CSV: a parsed frame, a missing
file, or an unparseable file. -/
inductive ReadOutcome where
  | ok (df : DataFrame)
  | fileNotFound
  | parseFailure
deriving DecidableEq, Repr

/-- load_data of Home.py lines 29-36 (identical in Univariate.py and
Bivariate.py): pd.read_csv inside a try block whose except Exception
returns pd.DataFrame(), so every failure kind yields the empty
sentinel. -/
def load_data_simple : ReadOutcome → DataFrame
  | ReadOutcome.ok df => df
  | ReadOutcome.fileNotFound => DataFrame.emptyFrame
  | ReadOutcome.parseFailure => DataFrame.emptyFrame

/-- load_data of Exploration.py lines 15-23: the except clause catches
only FileNotFoundError, in which case it shows an error message and
returns the empty sentinel; any other read failure, such as a parser
error on an unparseable file, escapes the handler — modelled as
Except.error, the propagated exception.  The result pairs the emitted
messages with the returned frame. -/
def load_data_exploration : ReadOutcome → Except String (List String × DataFrame)
  | ReadOutcome.ok df => Except.ok ([], df)
  | ReadOutcome.fileNotFound =>
      Except.ok (["File Building_Permits.csv not found. Please upload it or check the path."],
        DataFrame.emptyFrame)
  | ReadOutcome.parseFailure => Except.error "pandas.errors.ParserError"

/-- A visible step of a page run. -/
inductive PageStep where
  | errorMsg (m : String)
  | halted
  | content
deriving DecidableEq, Repr

/-- The guard at the top of Home.py lines 43-45 (identical in
Univariate.py and Bivariate.py): an empty frame shows an error and
stops the script; otherwise the page content renders. -/
def page_guard_simple (df : DataFrame) : List PageStep :=
  if df.isEmptyDF then
    [PageStep.errorMsg "Could not load Building_Permits.csv - place file in project folder.",
     PageStep.halted]
  else [PageStep.content]

/-- Exploration.py lines 48-52: the loader runs (its messages are
shown), then an empty frame stops the script before any tab renders. -/
def page_exploration (o : ReadOutcome) : Except String (List PageStep) :=
  (load_data_exploration o).map (fun md =>
    (md.1.map PageStep.errorMsg)
      ++ (if md.2.isEmptyDF then [PageStep.halted] else [PageStep.content]))

/-- C8 counterexample: an unparseable file makes the Exploration loader
propagate the parser exception instead of returning the empty sentinel,
so the page crashes rather than halting with an error. -/
theorem C8_exploration_parse_error_escapes :
    page_exploration ReadOutcome.parseFailure = Except.error "pandas.errors.ParserError"
    ∧ load_data_exploration ReadOutcome.parseFailure
        ≠ Except.ok ([], DataFrame.emptyFrame) := by
  exact ⟨rfl, fun h => Except.noConfusion h⟩

/-- C8 amended: the Home, Univariate and Bivariate loader returns the
empty sentinel on both failure kinds and those pages halt on it with a
visible error; the Exploration loader returns the sentinel (with an
error message) only for a missing file, on which the page halts, while
an unparseable file propagates the parser exception there. -/
theorem C8_load_failure_handling :
    load_data_simple ReadOutcome.fileNotFound = DataFrame.emptyFrame
    ∧ load_data_simple ReadOutcome.parseFailure = DataFrame.emptyFrame
    ∧ page_guard_simple DataFrame.emptyFrame
        = [PageStep.errorMsg "Could not load Building_Permits.csv - place file in project folder.",
           PageStep.halted]
    ∧ page_exploration ReadOutcome.fileNotFound
        = Except.ok
            [PageStep.errorMsg "File Building_Permits.csv not found. Please upload it or check the path.",
             PageStep.halted]
    ∧ page_exploration ReadOutcome.parseFailure = Except.error "pandas.errors.ParserError" :=
  ⟨rfl, rfl, rfl, rfl, rfl⟩

/-- Exploration.py line 6: from ydata_profiling import ProfileReport is
an unconditional module-level import; a missing dependency raises
ModuleNotFoundError at import time, modelled as Except.error. -/
def exploration_import (dep_installed : Bool) : Except String Unit :=
  if dep_installed then Except.ok ()
  else Except.error "ModuleNotFoundError: ydata_profiling"

/-- Loading the Exploration page module: the import runs before anything
else; only if it succeeds does the rest of the page run. -/
def exploration_module (dep_installed : Bool) (o : ReadOutcome) :
    Except String (List PageStep) :=
  (exploration_import dep_installed).bind (fun _ => page_exploration o)

/-- Exploration.py lines 232-247: report generation after the button
click is wrapped in try/except; a generation failure is caught and shown
as an inline error message, and the page keeps running. -/
def tab7_generate (gen : Except String String) : List PageStep :=
  match gen with
  | Except.ok _ => [PageStep.content]
  | Except.error e => [PageStep.errorMsg ("An error occurred: " ++ e)]

/-- A non-empty one-column frame. -/
def dfOne : DataFrame := ⟨["a"], [rowB]⟩

/-- C9 counterexample: with the profiling dependency missing, loading
the Exploration page propagates the import error — the page crashes,
with no warning and no disabled-feature fallback. -/
theorem C9_missing_dependency_crashes :
    exploration_module false (ReadOutcome.ok dfOne)
      = Except.error "ModuleNotFoundError: ydata_profiling" := rfl

/-- C9 amended: the profiling import is unconditional, so a missing
dependency raises at import time and the page fails to load; with the
dependency installed the page renders; and an error raised while
generating the report is caught and shown inline without crashing the
page. -/
theorem C9_import_and_generation_behaviour :
    exploration_module false (ReadOutcome.ok dfOne)
      = Except.error "ModuleNotFoundError: ydata_profiling"
    ∧ exploration_module true (ReadOutcome.ok dfOne) = Except.ok [PageStep.content]
    ∧ tab7_generate (Except.error "ValueError: config")
        = [PageStep.errorMsg "An error occurred: ValueError: config"] :=
  ⟨rfl, rfl, rfl⟩

end BuildingPermits
